import Mathlib

set_option linter.unusedVariables false

/-!
Verification development for the CourtListener repository.

Part 1 models the webhook delivery and retry pipeline (the implementation
lives in `cl/api` which is not part of the source snapshot; only its test
suite `cl/recap/tests.py` is, so the pipeline is modelled from the spec and
the behaviour pinned down by those tests).  Times are natural numbers
measured in minutes.

Part 2 models the RECAP docket ingestion merge logic and attorney
deduplication (same situation: modelled from the spec).

Part 3 embeds `build_date_range` from `alert/corpus_importer/dup_finder.py`
and `parse_date` from
`cl/corpus_importer/management/commands/update_casenames_wl_dataset.py`,
which are present in the source.
-/

namespace CourtListener

/-- Status values of a webhook event (WEBHOOK_EVENT_STATUS). -/
inductive EventStatus where
  | IN_PROGRESS
  | ENQUEUED_RETRY
  | SUCCESSFUL
  | FAILED
deriving DecidableEq, Repr

/-- Kinds of notification emails the pipeline sends about a webhook. -/
inductive EmailKind where
  | failing
  | disabled
deriving DecidableEq, Repr

/-- Modelled from the spec: a WebhookEvent row of `cl/api` (not in the
source snapshot).  `nextRetryDate` and `dateCreated` are minutes;
`statusCode` is the last HTTP status code received, if any. -/
structure WebhookEvent where
  eventStatus : EventStatus
  retryCounter : Nat
  nextRetryDate : Option Nat
  dateCreated : Nat
  debug : Bool
  statusCode : Option Nat
deriving DecidableEq, Repr

/-- Modelled from the spec: the state of one webhook endpoint together with
its events (kept in creation order) and the notification emails sent so
far. -/
structure WebhookState where
  enabled : Bool
  events : List WebhookEvent
  emails : List EmailKind
deriving DecidableEq, Repr

/-- Minutes in two days: the cut-off age for retrying webhook events. -/
def twoDays : Nat := 2 * 24 * 60

/-- Modelled from the spec: `cl.api.utils.get_next_webhook_retry_date`, the
exponential backoff policy.  With retry counter `c` the next retry happens
`3 ^ (c + 1)` minutes from now. -/
def get_next_webhook_retry_date (retry_counter : Nat) (now : Nat) : Nat :=
  now + 3 ^ (retry_counter + 1)

/-- Time of the n-th retry when every delivery fails, with the first
delivery attempt at time 0 (so `nthRetryTime 0 = 0`). -/
def nthRetryTime : Nat → Nat
  | 0 => 0
  | n + 1 => get_next_webhook_retry_date n (nthRetryTime n)

/-- An event is due for a retry: enqueued, its retry date arrived, and it is
not a debug event. -/
def dueForRetry (now : Nat) (ev : WebhookEvent) : Bool :=
  ev.eventStatus == EventStatus.ENQUEUED_RETRY &&
    (match ev.nextRetryDate with
     | some t => decide (t ≤ now)
     | none => false) &&
    !ev.debug

/-- A due event older than two days is marked failed instead of retried. -/
def shouldFailOld (now : Nat) (ev : WebhookEvent) : Bool :=
  dueForRetry now ev && decide (ev.dateCreated + twoDays < now)

/-- A due event is retried when it is within the two-day window and its
parent webhook is enabled. -/
def shouldRetry (now : Nat) (enabled : Bool) (ev : WebhookEvent) : Bool :=
  dueForRetry now ev && decide (now ≤ ev.dateCreated + twoDays) && enabled

/-- Indices of the events a call to `retry_webhook_events` at time `now`
attempts to deliver. -/
def eventsToRetry (now : Nat) (st : WebhookState) : List Nat :=
  (List.range st.events.length).filter fun i =>
    match st.events[i]? with
    | some ev => shouldRetry now st.enabled ev
    | none => false

/-- Index of the oldest event of the webhook that is enqueued for retry
(events are kept in creation order). -/
def oldestEnqueuedIdx (events : List WebhookEvent) : Option Nat :=
  events.findIdx? fun ev => ev.eventStatus == EventStatus.ENQUEUED_RETRY

/-- Modelled from the spec: one delivery attempt of event `i` followed by
the bookkeeping of `cl.api.webhooks.update_webhook_event_after_request`.
`respond` is the HTTP status code returned by the endpoint.  A 2xx response
marks the event successful.  Any other response increments the retry
counter; on the 8th failed attempt the event is marked failed and the
webhook disabled (with a disabling notification if it was enabled), while
earlier failures re-enqueue the event with the exponential backoff date and
notify about a failing webhook exactly when the event is the oldest
enqueued one and its counter reached 2 or 6. -/
def send_webhook_event (now respond : Nat) (st : WebhookState) (i : Nat) :
    WebhookState :=
  match st.events[i]? with
  | none => st
  | some ev =>
    if 200 ≤ respond ∧ respond < 300 then
      let ev' := { ev with eventStatus := EventStatus.SUCCESSFUL, statusCode := some respond }
      { st with events := st.events.set i ev' }
    else
      let c := ev.retryCounter + 1
      if 8 ≤ c then
        let ev' := { ev with eventStatus := EventStatus.FAILED, retryCounter := c, statusCode := some respond }
        let events' := st.events.set i ev'
        if st.enabled then
          { enabled := false, events := events', emails := st.emails ++ [EmailKind.disabled] }
        else
          { st with events := events' }
      else
        let ev' := { ev with eventStatus := EventStatus.ENQUEUED_RETRY, retryCounter := c, nextRetryDate := some (get_next_webhook_retry_date c now), statusCode := some respond }
        let events' := st.events.set i ev'
        let oldestHit : Bool :=
          match oldestEnqueuedIdx events' with
          | some j => j == i
          | none => false
        if oldestHit ∧ (c = 2 ∨ c = 6) ∧ st.enabled then
          { st with events := events', emails := st.emails ++ [EmailKind.failing] }
        else
          { st with events := events' }

/-- Modelled from the spec: `retry_webhook_events` of
`cl/api/management/commands/cl_retry_webhooks.py`.  Due events older than
two days are marked failed; the remaining due events of an enabled webhook
are delivered in creation order.  Returns the number of events retried and
the new state. -/
def retry_webhook_events (now respond : Nat) (st : WebhookState) :
    Nat × WebhookState :=
  let marked := st.events.map fun ev =>
    if shouldFailOld now ev then { ev with eventStatus := EventStatus.FAILED }
    else ev
  let toRetry := eventsToRetry now st
  let final := toRetry.foldl (send_webhook_event now respond)
    { st with events := marked }
  (toRetry.length, final)

/-- Modelled from the spec: re-enabling a disabled webhook restores the
retry counter of its pending enqueued events created within the last two
days (making them due now); older pending events are left untouched. -/
def re_enable_webhook (now : Nat) (st : WebhookState) : WebhookState :=
  let restore := fun (ev : WebhookEvent) =>
    if ev.eventStatus == EventStatus.ENQUEUED_RETRY && decide (now ≤ ev.dateCreated + twoDays) then
      { ev with retryCounter := 0, nextRetryDate := some now }
    else ev
  { st with enabled := true, events := st.events.map restore }

/-- Concrete scenario for C2's witness: one event on its 8th attempt. -/
def exhaustEvent : WebhookEvent :=
  { eventStatus := EventStatus.ENQUEUED_RETRY, retryCounter := 7,
    nextRetryDate := some 3, dateCreated := 0, debug := false,
    statusCode := none }

/-- Concrete scenario for C2's witness: its enabled parent webhook. -/
def exhaustState : WebhookState :=
  { enabled := true, events := [exhaustEvent], emails := [] }

/-- Concrete scenario for C3: a due, enqueued, non-debug event of an
enabled webhook, created more than two days before the retry run. -/
def staleEvent : WebhookEvent :=
  { eventStatus := EventStatus.ENQUEUED_RETRY, retryCounter := 2,
    nextRetryDate := some 3, dateCreated := 0, debug := false,
    statusCode := none }

/-- Concrete scenario for C3: the enabled webhook owning `staleEvent`. -/
def staleState : WebhookState :=
  { enabled := true, events := [staleEvent], emails := [] }

/-- Concrete scenario for C3's witness: a due event within the window. -/
def freshEvent : WebhookEvent :=
  { eventStatus := EventStatus.ENQUEUED_RETRY, retryCounter := 1,
    nextRetryDate := some 3, dateCreated := 0, debug := false,
    statusCode := none }

/-- Concrete scenario for C3's witness: the webhook owning `freshEvent`. -/
def freshState : WebhookState :=
  { enabled := true, events := [freshEvent], emails := [] }

/-- Concrete scenario for C4: an event on its 8th delivery attempt. -/
def eighthEvent : WebhookEvent :=
  { eventStatus := EventStatus.ENQUEUED_RETRY, retryCounter := 7,
    nextRetryDate := some 3, dateCreated := 0, debug := false,
    statusCode := none }

/-- Concrete scenario for C4: the enabled webhook owning `eighthEvent`. -/
def eighthState : WebhookState :=
  { enabled := true, events := [eighthEvent], emails := [] }

/-- Concrete scenario for C4's witness: a failing event mid-stream. -/
def fourthEvent : WebhookEvent :=
  { eventStatus := EventStatus.ENQUEUED_RETRY, retryCounter := 3,
    nextRetryDate := some 3, dateCreated := 0, debug := false,
    statusCode := none }

/-- Concrete scenario for C4's witness: the webhook owning `fourthEvent`. -/
def fourthState : WebhookState :=
  { enabled := true, events := [fourthEvent], emails := [] }

/-- Scenario for C5, mirroring the repository's webhook-disabling test: two
events of the same enabled webhook, both enqueued for retry and due at
minute 3, created at minute 0. -/
def throttleEvent : WebhookEvent :=
  { eventStatus := EventStatus.ENQUEUED_RETRY, retryCounter := 0,
    nextRetryDate := some 3, dateCreated := 0, debug := false,
    statusCode := none }

/-- Initial state of the C5 scenario. -/
def throttleState : WebhookState :=
  { enabled := true, events := [throttleEvent, throttleEvent], emails := [] }

/-- One round of the C5 scenario: run the retry command at minute 3 against
an endpoint answering 500, then make the events due again (as the test does
by restoring `next_retry_date`). -/
def throttleRound (st : WebhookState) : WebhookState :=
  let st' := (retry_webhook_events 3 500 st).2
  { st' with events := st'.events.map (fun ev => { ev with nextRetryDate := some 3 }) }

/-- State of the C5 scenario after `n` rounds. -/
def throttleIter : Nat → WebhookState
  | 0 => throttleState
  | n + 1 => throttleRound (throttleIter n)

/-- Scenario for C6, mirroring the repository's cut-off test: four enqueued
events created at minutes 0, 2880, 4320 and 5760 (the base time is two days
before "today"), each due three minutes after its creation. -/
def cutoffState : WebhookState :=
  { enabled := true,
    events :=
      [{ eventStatus := EventStatus.ENQUEUED_RETRY, retryCounter := 7,
         nextRetryDate := some 3, dateCreated := 0, debug := false,
         statusCode := none },
       { eventStatus := EventStatus.ENQUEUED_RETRY, retryCounter := 2,
         nextRetryDate := some 2883, dateCreated := 2880, debug := false,
         statusCode := none },
       { eventStatus := EventStatus.ENQUEUED_RETRY, retryCounter := 2,
         nextRetryDate := some 4323, dateCreated := 4320, debug := false,
         statusCode := none },
       { eventStatus := EventStatus.ENQUEUED_RETRY, retryCounter := 3,
         nextRetryDate := some 5763, dateCreated := 5760, debug := false,
         statusCode := none }],
    emails := [] }

/-- C6 scenario after the first retry run (minute 3, endpoint failing). -/
def cutoffState1 : WebhookState := (retry_webhook_events 3 500 cutoffState).2

/-- C6 scenario after the second retry run (minute 5763, webhook already
disabled). -/
def cutoffState2 : WebhookState := (retry_webhook_events 5763 500 cutoffState1).2

/-- C6 scenario after the webhook is re-enabled at minute 7200 (three days
after the creation of the second event). -/
def cutoffState3 : WebhookState := re_enable_webhook 7200 cutoffState2

/-- C6 scenario after the final retry run (minute 7200, endpoint healthy). -/
def cutoffState4 : WebhookState := (retry_webhook_events 7200 200 cutoffState3).2

/-- Concrete scenario for C6's witness: a pending event two days and one
minute old at retry time. -/
def agedEvent : WebhookEvent :=
  { eventStatus := EventStatus.ENQUEUED_RETRY, retryCounter := 2,
    nextRetryDate := some 3, dateCreated := 0, debug := false,
    statusCode := none }

/-- Concrete scenario for C6's witness: the webhook owning `agedEvent`. -/
def agedState : WebhookState :=
  { enabled := true, events := [agedEvent], emails := [] }

/-- Modelled from the spec: a docket entry as parsed from an uploaded
docket page (the RECAP merge code of `cl/recap` is not in the source
snapshot).  Unnumbered (minute) entries have `entryNumber = none`. -/
structure DocketEntryData where
  entryNumber : Option Nat
  dateFiled : Nat
  description : String
deriving DecidableEq, Repr

/-- Modelled from the spec: the content of one docket upload. -/
structure DocketUpload where
  court : String
  pacer_case_id : String
  case_name : String
  entries : List DocketEntryData
deriving DecidableEq, Repr

/-- Modelled from the spec: a stored docket row with its entries. -/
structure Docket where
  pk : Nat
  court : String
  pacer_case_id : String
  case_name : String
  entries : List DocketEntryData
deriving DecidableEq, Repr

/-- Modelled from the spec: the docket table, with the next free primary
key. -/
structure DocketDB where
  dockets : List Docket
  nextPk : Nat
deriving DecidableEq, Repr

/-- Deduplication key of a docket entry: numbered entries match on their
number, numberless entries match on date and description. -/
def entryKey (e : DocketEntryData) : Nat ⊕ (Nat × String) :=
  match e.entryNumber with
  | some n => Sum.inl n
  | none => Sum.inr (e.dateFiled, e.description)

/-- Two entries match when their deduplication keys coincide. -/
def keyMatches (s e : DocketEntryData) : Bool :=
  decide (entryKey s = entryKey e)

/-- Does the stored list contain an entry with key `k`? -/
def hasKey (l : List DocketEntryData) (k : Nat ⊕ (Nat × String)) : Bool :=
  l.any fun s => decide (entryKey s = k)

/-- Modelled from the spec: merge one incoming entry into the stored
entries — update the matching entries if any, otherwise insert. -/
def add_docket_entry (l : List DocketEntryData) (e : DocketEntryData) :
    List DocketEntryData :=
  if l.any (fun s => keyMatches s e) then
    l.map (fun s => if keyMatches s e then e else s)
  else l ++ [e]

/-- Modelled from the spec: merge a list of incoming entries in order. -/
def add_docket_entries (l : List DocketEntryData)
    (es : List DocketEntryData) : List DocketEntryData :=
  es.foldl add_docket_entry l

/-- A stored docket matches an upload on court and PACER case id. -/
def docketMatch (u : DocketUpload) (d : Docket) : Bool :=
  d.court == u.court && d.pacer_case_id == u.pacer_case_id

/-- Apply `f` to the first docket satisfying `p`, keeping the rest. -/
def updateFirstMatch (p : Docket → Bool) (f : Docket → Docket) :
    List Docket → List Docket
  | [] => []
  | d :: ds => if p d then f d :: ds else d :: updateFirstMatch p f ds

/-- Merging an upload into an existing docket row. -/
def mergeDocket (u : DocketUpload) (d : Docket) : Docket :=
  { d with case_name := u.case_name,
           entries := add_docket_entries d.entries u.entries }

/-- The fresh docket row created for an upload with no matching docket. -/
def newDocket (u : DocketUpload) (db : DocketDB) : Docket :=
  { pk := db.nextPk, court := u.court, pacer_case_id := u.pacer_case_id,
    case_name := u.case_name, entries := add_docket_entries [] u.entries }

/-- Modelled from the spec: `process_recap_docket` of `cl/recap/tasks.py` —
find the docket by court and PACER case id (creating it if absent) and
merge the uploaded entries into it, deduplicating.  Returns the docket's
primary key and the new table. -/
def process_recap_docket (u : DocketUpload) (db : DocketDB) :
    Nat × DocketDB :=
  match db.dockets.find? (docketMatch u) with
  | some d =>
    (d.pk, { db with dockets :=
        updateFirstMatch (docketMatch u) (mergeDocket u) db.dockets })
  | none =>
    (db.nextPk, { dockets := db.dockets ++ [newDocket u db],
                  nextPk := db.nextPk + 1 })

/-- The docket an upload refers to, if stored. -/
def docketFor (u : DocketUpload) (db : DocketDB) : Option Docket :=
  db.dockets.find? (docketMatch u)

/-- Concrete upload for C7 with two numberless entries. -/
def numberlessUpload : DocketUpload :=
  { court := "azd", pacer_case_id := "12345", case_name := "A v. B",
    entries := [{ entryNumber := none, dateFiled := 10,
                  description := "minute entry one" },
                { entryNumber := none, dateFiled := 10,
                  description := "minute entry two" }] }

/-- Concrete empty docket table for C7. -/
def emptyDocketDB : DocketDB := { dockets := [], nextPk := 1 }

/-- Modelled from the spec: a stored Attorney row of `cl/people_db` (the
`add_attorney` merge code is not in the source snapshot).  Contact
information is reduced to the extracted email; the empty string means no
contact info. -/
structure AttorneyRow where
  pk : Nat
  name : String
  email : String
deriving DecidableEq, Repr

/-- Modelled from the spec: a Role row linking an attorney, a party and a
docket; `role` is the role-type code. -/
structure RoleRow where
  attorneyPk : Nat
  partyPk : Nat
  docketPk : Nat
  role : Nat
deriving DecidableEq, Repr

/-- Modelled from the spec: the incoming attorney data of one upload. -/
structure AttorneyData where
  name : String
  contact : String
  roles : List Nat
deriving DecidableEq, Repr

/-- Modelled from the spec: the attorney and role tables. -/
structure PeopleDB where
  attorneys : List AttorneyRow
  roles : List RoleRow
  nextPk : Nat
deriving DecidableEq, Repr

/-- A freshly created Role row. -/
def mkRole (apk ppk dpk ro : Nat) : RoleRow :=
  { attorneyPk := apk, partyPk := ppk, docketPk := dpk, role := ro }

/-- Modelled from the spec: `add_attorney` — reuse the latest stored
attorney matching on both name and contact info (never matching when the
incoming data has no contact info), otherwise create a new row; in either
case the attorney's prior roles on the docket are deleted and replaced by
the incoming roles. -/
def add_attorney (atty : AttorneyData) (partyPk docketPk : Nat)
    (db : PeopleDB) : Nat × PeopleDB :=
  let existing : Option AttorneyRow :=
    if atty.contact == "" then none
    else (db.attorneys.filter
      (fun a => a.name == atty.name && a.email == atty.contact)).getLast?
  match existing with
  | some a =>
    let kept := db.roles.filter
      (fun r => !(r.attorneyPk == a.pk && r.docketPk == docketPk))
    (a.pk, { db with
      roles := kept ++ atty.roles.map (mkRole a.pk partyPk docketPk) })
  | none =>
    let a : AttorneyRow :=
      { pk := db.nextPk, name := atty.name, email := atty.contact }
    (db.nextPk,
      { attorneys := db.attorneys ++ [a],
        roles := db.roles ++ atty.roles.map (mkRole db.nextPk partyPk docketPk),
        nextPk := db.nextPk + 1 })

/-- The roles a given attorney has on a given docket. -/
def rolesOn (db : PeopleDB) (attorneyPk docketPk : Nat) : List RoleRow :=
  db.roles.filter
    (fun r => r.attorneyPk == attorneyPk && r.docketPk == docketPk)

/-- Concrete incoming attorney data for C8's witness, mirroring
`RecapAddAttorneyTest`: a known name and email with two roles. -/
def attyJamieson : AttorneyData :=
  { name := "Brewster H. Jamieson",
    contact := "jamiesonb@lanepowell.com", roles := [0, 1] }

/-- Concrete people database for C8's witness: the same attorney already
stored with one (to-be-overwritten) role on docket 3. -/
def peopleDB0 : PeopleDB :=
  { attorneys := [{ pk := 1, name := "Brewster H. Jamieson",
                    email := "jamiesonb@lanepowell.com" }],
    roles := [{ attorneyPk := 1, partyPk := 2, docketPk := 3, role := 9 }],
    nextPk := 4 }

/-- Gregorian calendar date from a count of days since 0000-03-01
(proleptic, era-based conversion); used to model Python `date`. -/
def civilFromDays (z : Nat) : Nat × Nat × Nat :=
  let era := z / 146097
  let doe := z % 146097
  let yoe := (doe - doe / 1460 + doe / 36524 - doe / 146096) / 365
  let y := yoe + era * 400
  let doy := doe - (365 * yoe + yoe / 4 - yoe / 100)
  let mp := (5 * doy + 2) / 153
  let d := doy - (153 * mp + 2) / 5 + 1
  let m := if mp < 10 then mp + 3 else mp - 9
  (if m ≤ 2 then y + 1 else y, m, d)

/-- Zero-pad a number to two digits. -/
def pad2 (n : Nat) : String :=
  if n < 10 then "0" ++ toString n else toString n

/-- Zero-pad a number to four digits. -/
def pad4 (n : Nat) : String :=
  if n < 10 then "000" ++ toString n
  else if n < 100 then "00" ++ toString n
  else if n < 1000 then "0" ++ toString n
  else toString n

/-- Python `date.isoformat()` for a proleptic-Gregorian ordinal (`1` is
0001-01-01): the string YYYY-MM-DD. -/
def isoformat (o : Nat) : String :=
  let ymd := civilFromDays (o + 305)
  pad4 ymd.1 ++ "-" ++ pad2 ymd.2.1 ++ "-" ++ pad2 ymd.2.2

/-- `build_date_range` of `alert/corpus_importer/dup_finder.py`: dates are
Python `date` values, modelled by their ordinals.  The `range` parameter
(defaulting to 5 in the source) is accepted but never used: the bounds are
the hard-coded 5 days before and 6 days after `date_filed`. -/
def build_date_range (date_filed : Nat) (range : Nat) : String :=
  let after := date_filed - 5
  let before := date_filed + 6
  "[" ++ isoformat after ++ "Z TO " ++ isoformat before ++ "Z]"

/-- Tokens of a `strptime` format string: literals, whitespace, and the
directives used by `DATE_FORMATS`. -/
inductive FmtTok where
  | lit (c : Char)
  | ws
  | D
  | M
  | Y4
  | Y2
  | B
  | Babbr
deriving DecidableEq, Repr

def compileFormat : List Char → List FmtTok
  | [] => []
  | '%' :: c :: rest =>
    (match c with
     | 'B' => FmtTok.B
     | 'b' => FmtTok.Babbr
     | 'd' => FmtTok.D
     | 'm' => FmtTok.M
     | 'Y' => FmtTok.Y4
     | 'y' => FmtTok.Y2
     | _ => FmtTok.lit c) :: compileFormat rest
  | c :: rest => (if c.isWhitespace then FmtTok.ws else FmtTok.lit c) :: compileFormat rest

def monthNames : List (String × Nat) :=
  [("january", 1), ("february", 2), ("march", 3), ("april", 4),
   ("may", 5), ("june", 6), ("july", 7), ("august", 8),
   ("september", 9), ("october", 10), ("november", 11), ("december", 12)]

def monthAbbrs : List (String × Nat) :=
  [("jan", 1), ("feb", 2), ("mar", 3), ("apr", 4), ("may", 5), ("jun", 6),
   ("jul", 7), ("aug", 8), ("sep", 9), ("oct", 10), ("nov", 11), ("dec", 12)]

def eatNameCI : List Char → List Char → Option (List Char)
  | [], rest => some rest
  | _ :: _, [] => none
  | n :: ns, c :: cs => if c.toLower == n then eatNameCI ns cs else none

def matchMonth : List (String × Nat) → List Char → Option (Nat × List Char)
  | [], _ => none
  | (nm, v) :: rest, input =>
    match eatNameCI nm.toList input with
    | some restInput => some (v, restInput)
    | none => matchMonth rest input

def dval (c : Char) : Nat := c.toNat - 48

def take2Digits (maxVal : Nat) : List Char → Option (Nat × List Char)
  | c1 :: c2 :: rest =>
    if c1.isDigit && c2.isDigit then
      let v := dval c1 * 10 + dval c2
      if 1 ≤ v ∧ v ≤ maxVal then some (v, rest)
      else if '1' ≤ c1 ∧ c1 ≤ '9' then some (dval c1, c2 :: rest)
      else none
    else if c1.isDigit then
      (if '1' ≤ c1 ∧ c1 ≤ '9' then some (dval c1, c2 :: rest) else none)
    else none
  | [c1] =>
    if c1.isDigit && decide ('1' ≤ c1 ∧ c1 ≤ '9') then some (dval c1, [])
    else none
  | [] => none

def takeExactDigits : Nat → Nat → List Char → Option (Nat × List Char)
  | 0, acc, input => some (acc, input)
  | _ + 1, _, [] => none
  | n + 1, acc, c :: rest =>
    if c.isDigit then takeExactDigits n (acc * 10 + dval c) rest else none

def runFmt : List FmtTok → List Char → Nat → Nat → Nat → Option (Nat × Nat × Nat)
  | [], input, y, m, d => if input.isEmpty then some (y, m, d) else none
  | FmtTok.lit c :: toks, input, y, m, d =>
    match input with
    | c' :: rest => if c' == c then runFmt toks rest y m d else none
    | [] => none
  | FmtTok.ws :: toks, input, y, m, d =>
    match input with
    | c' :: rest =>
      if c'.isWhitespace then
        runFmt toks (rest.dropWhile Char.isWhitespace) y m d
      else none
    | [] => none
  | FmtTok.D :: toks, input, y, m, _ =>
    match take2Digits 31 input with
    | some (v, rest) => runFmt toks rest y m v
    | none => none
  | FmtTok.M :: toks, input, y, _, d =>
    match take2Digits 12 input with
    | some (v, rest) => runFmt toks rest y v d
    | none => none
  | FmtTok.Y4 :: toks, input, _, m, d =>
    match takeExactDigits 4 0 input with
    | some (v, rest) => runFmt toks rest v m d
    | none => none
  | FmtTok.Y2 :: toks, input, _, m, d =>
    match takeExactDigits 2 0 input with
    | some (v, rest) =>
      runFmt toks rest (if v ≤ 68 then 2000 + v else 1900 + v) m d
    | none => none
  | FmtTok.B :: toks, input, y, _, d =>
    match matchMonth monthNames input with
    | some (v, rest) => runFmt toks rest y v d
    | none => none
  | FmtTok.Babbr :: toks, input, y, _, d =>
    match matchMonth monthAbbrs input with
    | some (v, rest) => runFmt toks rest y v d
    | none => none

def isLeap (y : Nat) : Bool :=
  y % 4 == 0 && (y % 100 != 0 || y % 400 == 0)

def daysInMonth (y m : Nat) : Nat :=
  if m = 2 then (if isLeap y then 29 else 28)
  else if m = 4 ∨ m = 6 ∨ m = 9 ∨ m = 11 then 30
  else 31

structure PDate where
  year : Nat
  month : Nat
  day : Nat
deriving DecidableEq, Repr

def strptime (date_str fmt : String) : Option PDate :=
  match runFmt (compileFormat fmt.toList) date_str.toList 1900 1 1 with
  | some (y, m, d) =>
    if 1 ≤ y ∧ y ≤ 9999 ∧ d ≤ daysInMonth y m then
      some { year := y, month := m, day := d }
    else none
  | none => none

def DATE_FORMATS : List String :=
  ["%B %d, %Y", "%d-%b-%y", "%m/%d/%Y", "%m/%d/%y", "%b. %d, %Y"]

def tryFormats : List String → String → Option PDate
  | [], _ => none
  | f :: fs, s =>
    match strptime s f with
    | some d => some d
    | none => tryFormats fs s

def parse_date (date_str : String) : Option PDate :=
  tryFormats DATE_FORMATS date_str

/-- C1: for every retry counter `c ≤ 6`, the next retry date is the current
time plus `3 ^ (c + 1)` minutes, and the cumulative elapsed times of
retries 1 through 7 measured from the first delivery attempt are
3, 12, 39, 120, 363, 1092 and 3279 minutes. -/
theorem webhook_backoff_policy (c now : Nat) (h : c ≤ 6) :
    get_next_webhook_retry_date c now = now + 3 ^ (c + 1) ∧
      (List.range 7).map (fun k => nthRetryTime (k + 1)) =
        [3, 12, 39, 120, 363, 1092, 3279] := by
  refine ⟨rfl, ?_⟩
  decide

/-- Witness for C1 at the largest admissible counter. -/
theorem webhook_backoff_policy_witness :
    6 ≤ 6 ∧
      (get_next_webhook_retry_date 6 0 = 0 + 3 ^ (6 + 1) ∧
        (List.range 7).map (fun k => nthRetryTime (k + 1)) =
          [3, 12, 39, 120, 363, 1092, 3279]) :=
  ⟨by decide, webhook_backoff_policy 6 0 (by decide)⟩

theorem getElem?_lt {α : Type _} {l : List α} {i : Nat} {a : α}
    (h : l[i]? = some a) : i < l.length := by
  rcases List.getElem?_eq_some.mp h with ⟨hlt, _⟩
  exact hlt

/-- Membership in the retry selection, as a search over the event list. -/
theorem mem_eventsToRetry_iff (now : Nat) (st : WebhookState) (i : Nat) :
    i ∈ eventsToRetry now st ↔
      ∃ ev, st.events[i]? = some ev ∧ shouldRetry now st.enabled ev = true := by
  unfold eventsToRetry
  rw [List.mem_filter, List.mem_range]
  constructor
  · rintro ⟨hlt, hp⟩
    cases hev : st.events[i]? with
    | none => rw [hev] at hp; exact absurd hp (by simp)
    | some ev => exact ⟨ev, rfl, by rw [hev] at hp; exact hp⟩
  · rintro ⟨ev, hev, hp⟩
    exact ⟨getElem?_lt hev, by rw [hev]; exact hp⟩

/-- Semantic reading of the retry-selection predicate. -/
theorem shouldRetry_iff (now : Nat) (b : Bool) (ev : WebhookEvent) :
    shouldRetry now b ev = true ↔
      (ev.eventStatus = EventStatus.ENQUEUED_RETRY ∧
       (∃ t, ev.nextRetryDate = some t ∧ t ≤ now) ∧
       ev.debug = false ∧ now ≤ ev.dateCreated + twoDays ∧ b = true) := by
  unfold shouldRetry dueForRetry
  cases hnr : ev.nextRetryDate with
  | none => simp [hnr]
  | some t => simp [hnr, and_assoc]

/-- C2: a webhook event enqueued for retry that fails its 8th delivery
attempt (retry counter 7 going in) is marked FAILED and the parent webhook
is disabled; a failure before the 8th attempt leaves the webhook's enabled
flag untouched and re-enqueues the event; and a FAILED event is never
selected for retry again. -/
theorem webhook_disable_on_exhaustion (now respond : Nat) (st : WebhookState)
    (i : Nat) (ev : WebhookEvent)
    (hev : st.events[i]? = some ev)
    (hfail : ¬(200 ≤ respond ∧ respond < 300)) :
    (ev.retryCounter = 7 →
       ∃ ev', (send_webhook_event now respond st i).events[i]? = some ev' ∧
         ev'.eventStatus = EventStatus.FAILED ∧
         (send_webhook_event now respond st i).enabled = false) ∧
    (ev.retryCounter + 1 < 8 →
       (send_webhook_event now respond st i).enabled = st.enabled ∧
       ∃ ev', (send_webhook_event now respond st i).events[i]? = some ev' ∧
         ev'.eventStatus = EventStatus.ENQUEUED_RETRY ∧
         ev'.retryCounter = ev.retryCounter + 1) ∧
    (∀ now' st' j ev', st'.events[j]? = some ev' →
       ev'.eventStatus = EventStatus.FAILED → j ∉ eventsToRetry now' st') := by
  have hlt : i < st.events.length := getElem?_lt hev
  refine ⟨?_, ?_, ?_⟩
  · intro h7
    have h8 : 8 ≤ ev.retryCounter + 1 := by omega
    by_cases hen : st.enabled <;>
      simp only [send_webhook_event, hev, if_neg hfail, if_pos h8, hen,
        if_true, if_false, Bool.false_eq_true] <;>
      exact ⟨_, List.getElem?_set_eq_of_lt _ hlt, rfl, by simp [hen]⟩
  · intro hlt8
    have h8 : ¬ 8 ≤ ev.retryCounter + 1 := by omega
    simp only [send_webhook_event, hev, if_neg hfail, if_neg h8]
    constructor
    · split <;> rfl
    · split <;> exact ⟨_, List.getElem?_set_eq_of_lt _ hlt, rfl, rfl⟩
  · intro now' st' j ev' hev' hst hmem
    rcases (mem_eventsToRetry_iff now' st' j).mp hmem with ⟨ev2, hev2, hsel⟩
    rw [hev'] at hev2
    cases hev2
    rcases (shouldRetry_iff now' st'.enabled ev').mp hsel with ⟨henq, _⟩
    rw [hst] at henq
    cases henq

/-- C3 (amended): a call to `retry_webhook_events` attempts delivery of
exactly those events that are in ENQUEUED_RETRY status, whose
`next_retry_date` has arrived, whose debug flag is unset, whose parent
webhook is enabled, and which were created at most two days ago; the
returned count is the number of such events. -/
theorem retry_selection_invariant (now respond : Nat) (st : WebhookState)
    (i : Nat) (ev : WebhookEvent) (hev : st.events[i]? = some ev) :
    (i ∈ eventsToRetry now st ↔
      (ev.eventStatus = EventStatus.ENQUEUED_RETRY ∧
       (∃ t, ev.nextRetryDate = some t ∧ t ≤ now) ∧
       ev.debug = false ∧ st.enabled = true ∧
       now ≤ ev.dateCreated + twoDays)) ∧
    (retry_webhook_events now respond st).1 = (eventsToRetry now st).length := by
  refine ⟨?_, rfl⟩
  rw [mem_eventsToRetry_iff]
  constructor
  · rintro ⟨ev2, hev2, hsel⟩
    rw [hev] at hev2
    cases hev2
    rcases (shouldRetry_iff now st.enabled ev).mp hsel with
      ⟨h1, h2, h3, h4, h5⟩
    exact ⟨h1, h2, h3, h5, h4⟩
  · rintro ⟨h1, h2, h3, h5, h4⟩
    exact ⟨ev, hev, (shouldRetry_iff now st.enabled ev).mpr ⟨h1, h2, h3, h4, h5⟩⟩

/-- C3 counterexample: at time 2881 (two days and one minute after its
creation) the event satisfies every condition the claim lists — enqueued
for retry, retry date arrived, debug unset, parent webhook enabled — yet
`retry_webhook_events` does not attempt it: the selection is empty and the
event is marked FAILED instead. -/
theorem retry_selection_counterexample :
    staleState.events[0]?.map (fun e => e.eventStatus) =
        some EventStatus.ENQUEUED_RETRY ∧
    staleState.events[0]?.map (fun e => e.nextRetryDate) = some (some 3) ∧
    3 ≤ 2881 ∧
    staleState.events[0]?.map (fun e => e.debug) = some false ∧
    staleState.enabled = true ∧
    eventsToRetry 2881 staleState = [] ∧
    (retry_webhook_events 2881 500 staleState).1 = 0 ∧
    (retry_webhook_events 2881 500 staleState).2.events[0]?.map
        (fun e => e.eventStatus) = some EventStatus.FAILED := by
  decide

/-- Witness for C3's amended theorem at a concrete state and time. -/
theorem retry_selection_invariant_witness :
    (0 ∈ eventsToRetry 3 freshState ↔
      (freshEvent.eventStatus = EventStatus.ENQUEUED_RETRY ∧
       (∃ t, freshEvent.nextRetryDate = some t ∧ t ≤ 3) ∧
       freshEvent.debug = false ∧ freshState.enabled = true ∧
       3 ≤ freshEvent.dateCreated + twoDays)) ∧
    (retry_webhook_events 3 500 freshState).1 =
      (eventsToRetry 3 freshState).length :=
  retry_selection_invariant 3 500 freshState 0 freshEvent (by decide)

/-- C4 (amended): on a delivery attempt the event is marked SUCCESSFUL if
and only if the response status code is in the 2xx range; on any other
response the retry counter is incremented and the received status code is
recorded, and the event is kept in ENQUEUED_RETRY when fewer than 8
attempts have occurred, while the 8th failure marks it FAILED. -/
theorem status_code_handling (now respond : Nat) (st : WebhookState)
    (i : Nat) (ev : WebhookEvent) (hev : st.events[i]? = some ev) :
    ((200 ≤ respond ∧ respond < 300) →
       (send_webhook_event now respond st i).events[i]? =
         some { ev with eventStatus := EventStatus.SUCCESSFUL,
                        statusCode := some respond }) ∧
    (¬(200 ≤ respond ∧ respond < 300) →
       ∃ ev', (send_webhook_event now respond st i).events[i]? = some ev' ∧
         ev'.retryCounter = ev.retryCounter + 1 ∧
         ev'.statusCode = some respond ∧
         ev'.eventStatus =
           (if ev.retryCounter + 1 < 8 then EventStatus.ENQUEUED_RETRY
            else EventStatus.FAILED)) ∧
    (∀ ev', (send_webhook_event now respond st i).events[i]? = some ev' →
       (ev'.eventStatus = EventStatus.SUCCESSFUL ↔
         (200 ≤ respond ∧ respond < 300))) := by
  have hlt : i < st.events.length := getElem?_lt hev
  refine ⟨?_, ?_, ?_⟩
  · intro hok
    simp only [send_webhook_event, hev, if_pos hok]
    exact List.getElem?_set_eq_of_lt _ hlt
  · intro hfail
    simp only [send_webhook_event, hev, if_neg hfail]
    by_cases h8 : 8 ≤ ev.retryCounter + 1
    · have hnot : ¬ ev.retryCounter + 1 < 8 := by omega
      simp only [if_pos h8, if_neg hnot]
      by_cases hen : st.enabled <;>
        simp only [hen, if_true, if_false, Bool.false_eq_true] <;>
        exact ⟨_, List.getElem?_set_eq_of_lt _ hlt, rfl, rfl, rfl⟩
    · have hyes : ev.retryCounter + 1 < 8 := by omega
      simp only [if_neg h8, if_pos hyes]
      split <;> exact ⟨_, List.getElem?_set_eq_of_lt _ hlt, rfl, rfl, rfl⟩
  · intro ev' hev'
    by_cases hok : 200 ≤ respond ∧ respond < 300
    · simp only [send_webhook_event, hev, if_pos hok] at hev'
      rw [List.getElem?_set_eq_of_lt _ hlt] at hev'
      cases hev'
      simpa using hok
    · simp only [send_webhook_event, hev, if_neg hok] at hev'
      constructor
      · intro hsucc
        exfalso
        by_cases h8 : 8 ≤ ev.retryCounter + 1
        · rw [if_pos h8] at hev'
          revert hev'
          split <;> intro hev' <;>
            rw [List.getElem?_set_eq_of_lt _ hlt] at hev' <;>
            cases hev' <;> cases hsucc
        · rw [if_neg h8] at hev'
          revert hev'
          split <;> intro hev' <;>
            rw [List.getElem?_set_eq_of_lt _ hlt] at hev' <;>
            cases hev' <;> cases hsucc
      · intro hok2
        exact absurd hok2 hok

/-- C4 counterexample: a non-2xx response (500) on the 8th delivery attempt
does not keep the event in ENQUEUED_RETRY as the claim demands for every
non-2xx response — the event is marked FAILED. -/
theorem status_code_counterexample :
    ¬(200 ≤ 500 ∧ 500 < 300) ∧
    (send_webhook_event 3 500 eighthState 0).events[0]?.map
        (fun e => e.eventStatus) = some EventStatus.FAILED ∧
    (send_webhook_event 3 500 eighthState 0).events[0]?.map
        (fun e => e.eventStatus) ≠ some EventStatus.ENQUEUED_RETRY := by
  decide

/-- Witness for C4's amended theorem at a concrete state. -/
theorem status_code_handling_witness :
    ((200 ≤ 500 ∧ 500 < 300) →
       (send_webhook_event 3 500 fourthState 0).events[0]? =
         some { fourthEvent with eventStatus := EventStatus.SUCCESSFUL,
                                 statusCode := some 500 }) ∧
    (¬(200 ≤ 500 ∧ 500 < 300) →
       ∃ ev', (send_webhook_event 3 500 fourthState 0).events[0]? = some ev' ∧
         ev'.retryCounter = fourthEvent.retryCounter + 1 ∧
         ev'.statusCode = some 500 ∧
         ev'.eventStatus =
           (if fourthEvent.retryCounter + 1 < 8 then EventStatus.ENQUEUED_RETRY
            else EventStatus.FAILED)) ∧
    (∀ ev', (send_webhook_event 3 500 fourthState 0).events[0]? = some ev' →
       (ev'.eventStatus = EventStatus.SUCCESSFUL ↔
         (200 ≤ 500 ∧ 500 < 300))) :=
  status_code_handling 3 500 fourthState 0 fourthEvent (by decide)

/-- Witness for C2 on the 8th failed attempt of a concrete event. -/
theorem webhook_disable_on_exhaustion_witness :
    (exhaustEvent.retryCounter = 7 →
       ∃ ev', (send_webhook_event 3 500 exhaustState 0).events[0]? = some ev' ∧
         ev'.eventStatus = EventStatus.FAILED ∧
         (send_webhook_event 3 500 exhaustState 0).enabled = false) ∧
    (exhaustEvent.retryCounter + 1 < 8 →
       (send_webhook_event 3 500 exhaustState 0).enabled = exhaustState.enabled ∧
       ∃ ev', (send_webhook_event 3 500 exhaustState 0).events[0]? = some ev' ∧
         ev'.eventStatus = EventStatus.ENQUEUED_RETRY ∧
         ev'.retryCounter = exhaustEvent.retryCounter + 1) ∧
    (∀ now' st' j ev', st'.events[j]? = some ev' →
       ev'.eventStatus = EventStatus.FAILED → j ∉ eventsToRetry now' st') :=
  webhook_disable_on_exhaustion 3 500 exhaustState 0 exhaustEvent
    (by decide) (by decide)

/-- C5: while the endpoint keeps failing, notifications are driven only by
the oldest enqueued event: across nine delivery rounds of two failing
events, the cumulative email counts are 0,1,1,1,1,2,2,3,3 — a failing
notification exactly when the oldest event reaches its 2nd and its 6th
failed attempt, a disabled notification exactly at its 8th, and nothing on
attempts 1, 3, 4, 5, 7 or after disabling. -/
theorem webhook_notification_throttling :
    (List.range 9).map (fun k => (throttleIter (k + 1)).emails.length) =
        [0, 1, 1, 1, 1, 2, 2, 3, 3] ∧
    (throttleIter 2).emails = [EmailKind.failing] ∧
    (throttleIter 6).emails = [EmailKind.failing, EmailKind.failing] ∧
    (throttleIter 8).emails =
        [EmailKind.failing, EmailKind.failing, EmailKind.disabled] ∧
    (throttleIter 9).emails =
        [EmailKind.failing, EmailKind.failing, EmailKind.disabled] ∧
    (throttleIter 7).enabled = true ∧
    (throttleIter 8).enabled = false ∧
    (throttleIter 8).events.map (fun e => (e.eventStatus, e.retryCounter)) =
        [(EventStatus.FAILED, 8), (EventStatus.FAILED, 8)] ∧
    (retry_webhook_events 3 500 (throttleIter 8)).1 = 0 := by
  decide

/-- A delivery attempt at index `j` leaves every other index unchanged. -/
theorem send_webhook_event_other (now r : Nat) (st : WebhookState)
    (j i : Nat) (hne : j ≠ i) :
    (send_webhook_event now r st j).events[i]? = st.events[i]? := by
  unfold send_webhook_event
  cases h : st.events[j]? with
  | none => rfl
  | some ev =>
    simp only [h]
    split
    · exact List.getElem?_set_ne hne
    · split
      · split
        · exact List.getElem?_set_ne hne
        · exact List.getElem?_set_ne hne
      · split
        · exact List.getElem?_set_ne hne
        · exact List.getElem?_set_ne hne

/-- Folding delivery attempts over indices avoiding `i` leaves `i`
unchanged. -/
theorem foldl_send_other (now r : Nat) (l : List Nat) (st : WebhookState)
    (i : Nat) (h : ∀ j ∈ l, j ≠ i) :
    (l.foldl (send_webhook_event now r) st).events[i]? = st.events[i]? := by
  induction l generalizing st with
  | nil => rfl
  | cons j tl ih =>
    rw [List.foldl_cons,
      ih _ (fun x hx => h x (List.mem_cons_of_mem _ hx))]
    exact send_webhook_event_other now r st j i (h j (List.mem_cons_self _ _))

/-- C6: an enqueued event older than two days is never delivered again and
is marked FAILED (first conjunct, general); re-enabling a webhook resets
the retry counter of pending enqueued events created within the last two
days and makes them due, while older ones are untouched (second conjunct,
general); and in the concrete four-event scenario of the repository's test
the cut-off and the counter restore behave exactly as claimed (remaining
conjuncts). -/
theorem retry_cutoff_and_restore (now respond : Nat) (st : WebhookState)
    (i : Nat) (ev : WebhookEvent) (hev : st.events[i]? = some ev)
    (hdue : dueForRetry now ev = true)
    (hold : ev.dateCreated + twoDays < now) :
    (i ∉ eventsToRetry now st ∧
       (retry_webhook_events now respond st).2.events[i]? =
         some { ev with eventStatus := EventStatus.FAILED }) ∧
    (∀ (now2 : Nat) (st2 : WebhookState) (j : Nat) (ev2 : WebhookEvent),
       st2.events[j]? = some ev2 →
       ev2.eventStatus = EventStatus.ENQUEUED_RETRY →
       ((now2 ≤ ev2.dateCreated + twoDays →
           (re_enable_webhook now2 st2).events[j]? =
             some { ev2 with retryCounter := 0, nextRetryDate := some now2 } ∧
           (re_enable_webhook now2 st2).enabled = true) ∧
        (ev2.dateCreated + twoDays < now2 →
           (re_enable_webhook now2 st2).events[j]? = some ev2))) ∧
    ((retry_webhook_events 3 500 cutoffState).1 = 1 ∧
     cutoffState1.enabled = false ∧
     cutoffState1.events.map (fun e => (e.eventStatus, e.retryCounter)) =
       [(EventStatus.FAILED, 8), (EventStatus.ENQUEUED_RETRY, 2),
        (EventStatus.ENQUEUED_RETRY, 2), (EventStatus.ENQUEUED_RETRY, 3)] ∧
     (retry_webhook_events 5763 500 cutoffState1).1 = 0 ∧
     (retry_webhook_events 7200 200 cutoffState3).1 = 2 ∧
     cutoffState4.events.map (fun e => (e.eventStatus, e.retryCounter)) =
       [(EventStatus.FAILED, 8), (EventStatus.FAILED, 2),
        (EventStatus.SUCCESSFUL, 0), (EventStatus.SUCCESSFUL, 0)]) := by
  have hnot : shouldRetry now st.enabled ev = false := by
    unfold shouldRetry
    have hd : decide (now ≤ ev.dateCreated + twoDays) = false := by
      simp only [decide_eq_false_iff_not]
      omega
    simp [hd]
  have hni : i ∉ eventsToRetry now st := by
    intro hmem
    rcases (mem_eventsToRetry_iff now st i).mp hmem with ⟨ev2, hev2, hsel⟩
    rw [hev] at hev2
    cases hev2
    rw [hnot] at hsel
    cases hsel
  refine ⟨⟨hni, ?_⟩, ?_, ?_⟩
  · unfold retry_webhook_events
    simp only []
    rw [foldl_send_other now respond (eventsToRetry now st) _ i
      (fun j hj hji => hni (hji ▸ hj))]
    show (st.events.map _)[i]? = _
    rw [List.getElem?_map, hev]
    have hfo : shouldFailOld now ev = true := by
      unfold shouldFailOld
      simp [hdue]
      omega
    simp [hfo]
  · intro now2 st2 j ev2 hev2 hstat
    constructor
    · intro hwithin
      refine ⟨?_, rfl⟩
      unfold re_enable_webhook
      simp only []
      rw [List.getElem?_map, hev2, Option.map_some']
      have hc : (ev2.eventStatus == EventStatus.ENQUEUED_RETRY &&
          decide (now2 ≤ ev2.dateCreated + twoDays)) = true := by
        simp [hstat, hwithin]
      rw [if_pos hc]
    · intro holder
      unfold re_enable_webhook
      simp only []
      rw [List.getElem?_map, hev2, Option.map_some']
      have hc : ¬ (ev2.eventStatus == EventStatus.ENQUEUED_RETRY &&
          decide (now2 ≤ ev2.dateCreated + twoDays)) = true := by
        have hd : decide (now2 ≤ ev2.dateCreated + twoDays) = false := by
          simp only [decide_eq_false_iff_not]
          omega
        simp [hd]
      rw [if_neg hc]
  · decide

/-- Witness for C6 at a concrete over-aged event and time 2881. -/
theorem retry_cutoff_and_restore_witness :
    (0 ∉ eventsToRetry 2881 agedState ∧
       (retry_webhook_events 2881 500 agedState).2.events[0]? =
         some { agedEvent with eventStatus := EventStatus.FAILED }) ∧
    (∀ (now2 : Nat) (st2 : WebhookState) (j : Nat) (ev2 : WebhookEvent),
       st2.events[j]? = some ev2 →
       ev2.eventStatus = EventStatus.ENQUEUED_RETRY →
       ((now2 ≤ ev2.dateCreated + twoDays →
           (re_enable_webhook now2 st2).events[j]? =
             some { ev2 with retryCounter := 0, nextRetryDate := some now2 } ∧
           (re_enable_webhook now2 st2).enabled = true) ∧
        (ev2.dateCreated + twoDays < now2 →
           (re_enable_webhook now2 st2).events[j]? = some ev2))) ∧
    ((retry_webhook_events 3 500 cutoffState).1 = 1 ∧
     cutoffState1.enabled = false ∧
     cutoffState1.events.map (fun e => (e.eventStatus, e.retryCounter)) =
       [(EventStatus.FAILED, 8), (EventStatus.ENQUEUED_RETRY, 2),
        (EventStatus.ENQUEUED_RETRY, 2), (EventStatus.ENQUEUED_RETRY, 3)] ∧
     (retry_webhook_events 5763 500 cutoffState1).1 = 0 ∧
     (retry_webhook_events 7200 200 cutoffState3).1 = 2 ∧
     cutoffState4.events.map (fun e => (e.eventStatus, e.retryCounter)) =
       [(EventStatus.FAILED, 8), (EventStatus.FAILED, 2),
        (EventStatus.SUCCESSFUL, 0), (EventStatus.SUCCESSFUL, 0)]) :=
  retry_cutoff_and_restore 2881 500 agedState 0 agedEvent (by decide)
    (by decide) (by decide)

theorem any_map_general {α β : Type _} (f : α → β) (p : β → Bool) :
    ∀ l : List α, (l.map f).any p = l.any (fun a => p (f a))
  | [] => rfl
  | x :: xs => by
    simp only [List.map_cons, List.any_cons, any_map_general f p xs]

/-- `hasKey` only depends on the list of keys. -/
theorem hasKey_eq_keys_any (l : List DocketEntryData)
    (k : Nat ⊕ (Nat × String)) :
    hasKey l k = (l.map entryKey).any (fun y => decide (y = k)) := by
  rw [any_map_general]
  rfl

theorem keyMatches_iff (s e : DocketEntryData) :
    keyMatches s e = true ↔ entryKey s = entryKey e := by
  unfold keyMatches
  exact decide_eq_true_iff

/-- Merging a matched entry preserves the list of keys. -/
theorem add_docket_entry_keys_matched (l : List DocketEntryData)
    (e : DocketEntryData) (h : hasKey l (entryKey e) = true) :
    (add_docket_entry l e).map entryKey = l.map entryKey := by
  unfold add_docket_entry
  rw [if_pos (show (l.any fun s => keyMatches s e) = true from h)]
  rw [List.map_map]
  apply List.map_congr_left
  intro s hs
  show entryKey (if keyMatches s e then e else s) = entryKey s
  by_cases hm : keyMatches s e = true
  · rw [if_pos hm]
    exact ((keyMatches_iff s e).mp hm).symm
  · rw [if_neg hm]

/-- Merging an unmatched entry appends its key. -/
theorem add_docket_entry_keys_new (l : List DocketEntryData)
    (e : DocketEntryData) (h : hasKey l (entryKey e) = false) :
    (add_docket_entry l e).map entryKey = l.map entryKey ++ [entryKey e] := by
  unfold add_docket_entry
  have hne : ¬ (l.any fun s => keyMatches s e) = true := by
    intro hc
    rw [show (l.any fun s => keyMatches s e) = hasKey l (entryKey e) from rfl,
      h] at hc
    cases hc
  rw [if_neg hne, List.map_append]
  rfl

/-- Merging a matched entry preserves the entry count. -/
theorem add_docket_entry_length_matched (l : List DocketEntryData)
    (e : DocketEntryData) (h : hasKey l (entryKey e) = true) :
    (add_docket_entry l e).length = l.length := by
  unfold add_docket_entry
  rw [if_pos (show (l.any fun s => keyMatches s e) = true from h)]
  exact List.length_map l _

/-- After merging `e` its key is present. -/
theorem hasKey_add_docket_entry_self (l : List DocketEntryData)
    (e : DocketEntryData) :
    hasKey (add_docket_entry l e) (entryKey e) = true := by
  by_cases h : hasKey l (entryKey e) = true
  · rw [hasKey_eq_keys_any, add_docket_entry_keys_matched l e h,
      ← hasKey_eq_keys_any]
    exact h
  · rw [hasKey_eq_keys_any,
      add_docket_entry_keys_new l e (Bool.eq_false_iff.mpr h),
      List.any_append]
    simp

/-- Merging never removes a key. -/
theorem hasKey_add_docket_entry_mono (l : List DocketEntryData)
    (e : DocketEntryData) (k : Nat ⊕ (Nat × String))
    (h : hasKey l k = true) :
    hasKey (add_docket_entry l e) k = true := by
  by_cases hm : hasKey l (entryKey e) = true
  · rw [hasKey_eq_keys_any, add_docket_entry_keys_matched l e hm,
      ← hasKey_eq_keys_any]
    exact h
  · rw [hasKey_eq_keys_any,
      add_docket_entry_keys_new l e (Bool.eq_false_iff.mpr hm),
      List.any_append]
    rw [hasKey_eq_keys_any] at h
    rw [h]
    rfl

/-- Folding merges never removes a key. -/
theorem hasKey_add_docket_entries_mono (es : List DocketEntryData) :
    ∀ (l : List DocketEntryData) (k : Nat ⊕ (Nat × String)),
      hasKey l k = true → hasKey (add_docket_entries l es) k = true := by
  induction es with
  | nil => intro l k h; exact h
  | cons x xs ih =>
    intro l k h
    exact ih (add_docket_entry l x) k (hasKey_add_docket_entry_mono l x k h)

/-- After a full merge, every incoming entry's key is present. -/
theorem hasKey_after_merge (es : List DocketEntryData) :
    ∀ (l : List DocketEntryData) (e : DocketEntryData), e ∈ es →
      hasKey (add_docket_entries l es) (entryKey e) = true := by
  induction es with
  | nil => intro l e he; cases he
  | cons x xs ih =>
    intro l e he
    rcases List.mem_cons.mp he with he | he
    · subst he
      exact hasKey_add_docket_entries_mono xs (add_docket_entry l e)
        (entryKey e) (hasKey_add_docket_entry_self l e)
    · exact ih (add_docket_entry l x) e he

/-- Merging entries whose keys are all present changes neither the count
nor the keys. -/
theorem merge_of_all_present (es : List DocketEntryData) :
    ∀ l : List DocketEntryData,
      (∀ e ∈ es, hasKey l (entryKey e) = true) →
      (add_docket_entries l es).length = l.length ∧
        (add_docket_entries l es).map entryKey = l.map entryKey := by
  induction es with
  | nil => intro l h; exact ⟨rfl, rfl⟩
  | cons x xs ih =>
    intro l h
    have hx : hasKey l (entryKey x) = true := h x (List.mem_cons_self _ _)
    have hkeys : (add_docket_entry l x).map entryKey = l.map entryKey :=
      add_docket_entry_keys_matched l x hx
    have htail : ∀ e ∈ xs, hasKey (add_docket_entry l x) (entryKey e) = true := by
      intro e he
      rw [hasKey_eq_keys_any, hkeys, ← hasKey_eq_keys_any]
      exact h e (List.mem_cons_of_mem _ he)
    rcases ih (add_docket_entry l x) htail with ⟨hlen, hk⟩
    refine ⟨?_, ?_⟩
    · rw [show add_docket_entries l (x :: xs) =
        add_docket_entries (add_docket_entry l x) xs from rfl, hlen]
      exact add_docket_entry_length_matched l x hx
    · rw [show add_docket_entries l (x :: xs) =
        add_docket_entries (add_docket_entry l x) xs from rfl, hk, hkeys]

/-- Re-merging the same upload into already-merged entries keeps the
count. -/
theorem remerge_length (base es : List DocketEntryData) :
    (add_docket_entries (add_docket_entries base es) es).length =
      (add_docket_entries base es).length :=
  (merge_of_all_present es (add_docket_entries base es)
    (fun e he => hasKey_after_merge es base e he)).1

/-- `updateFirstMatch` rewrites the found element in place. -/
theorem find?_updateFirstMatch (p : Docket → Bool) (f : Docket → Docket) :
    ∀ (l : List Docket) (d : Docket), l.find? p = some d →
      p (f d) = true → (updateFirstMatch p f l).find? p = some (f d) := by
  intro l
  induction l with
  | nil => intro d h; cases h
  | cons x xs ih =>
    intro d h hf
    by_cases hx : p x = true
    · rw [List.find?_cons, hx] at h
      cases h
      unfold updateFirstMatch
      rw [if_pos hx, List.find?_cons, hf]
    · rw [List.find?_cons, Bool.eq_false_iff.mpr hx] at h
      unfold updateFirstMatch
      rw [if_neg hx, List.find?_cons, Bool.eq_false_iff.mpr hx]
      exact ih d h hf

/-- C7: processing the same docket upload twice merges into the same
docket row (equal primary keys) and leaves the docket-entry count
unchanged after the second run — for arbitrary uploads, including ones
with multiple numberless entries — and, concretely, an upload with two
distinct numberless entries ingested twice into an empty table yields the
same docket with exactly 2 entries both times. -/
theorem recap_docket_idempotent (u : DocketUpload) (db : DocketDB) :
    ((process_recap_docket u (process_recap_docket u db).2).1 =
        (process_recap_docket u db).1 ∧
      ∃ d1 d2,
        docketFor u (process_recap_docket u db).2 = some d1 ∧
        docketFor u (process_recap_docket u (process_recap_docket u db).2).2 =
          some d2 ∧
        d1.pk = (process_recap_docket u db).1 ∧ d2.pk = d1.pk ∧
        d2.entries.length = d1.entries.length) ∧
    ((process_recap_docket numberlessUpload emptyDocketDB).1 = 1 ∧
      (docketFor numberlessUpload
          (process_recap_docket numberlessUpload emptyDocketDB).2).map
        (fun d => (d.pk, d.entries.length)) = some (1, 2) ∧
      (docketFor numberlessUpload
          (process_recap_docket numberlessUpload
            (process_recap_docket numberlessUpload emptyDocketDB).2).2).map
        (fun d => (d.pk, d.entries.length)) = some (1, 2)) := by
  constructor
  · cases hf : db.dockets.find? (docketMatch u) with
    | some d0 =>
      have hp0 : docketMatch u d0 = true := List.find?_some hf
      have hfind1 : (updateFirstMatch (docketMatch u) (mergeDocket u)
          db.dockets).find? (docketMatch u) = some (mergeDocket u d0) :=
        find?_updateFirstMatch _ _ db.dockets d0 hf hp0
      have hfind2 : (updateFirstMatch (docketMatch u) (mergeDocket u)
          (updateFirstMatch (docketMatch u) (mergeDocket u)
            db.dockets)).find? (docketMatch u) =
          some (mergeDocket u (mergeDocket u d0)) :=
        find?_updateFirstMatch _ _ _ (mergeDocket u d0) hfind1 hp0
      simp only [process_recap_docket, hf, hfind1, docketFor]
      exact ⟨rfl, mergeDocket u d0, mergeDocket u (mergeDocket u d0),
        rfl, hfind2, rfl, rfl, remerge_length d0.entries u.entries⟩
    | none =>
      have hpNew : ∀ dn : Docket, dn.court = u.court →
          dn.pacer_case_id = u.pacer_case_id → docketMatch u dn = true := by
        intro dn h1 h2
        unfold docketMatch
        rw [h1, h2]
        simp
      have hfind1 : (db.dockets ++ [newDocket u db]).find? (docketMatch u) =
          some (newDocket u db) := by
        rw [List.find?_append, hf, Option.none_or, List.find?_singleton,
          if_pos (hpNew _ rfl rfl)]
      have hfind2 : (updateFirstMatch (docketMatch u) (mergeDocket u)
          (db.dockets ++ [newDocket u db])).find? (docketMatch u) =
          some (mergeDocket u (newDocket u db)) :=
        find?_updateFirstMatch _ _ _ _ hfind1 (hpNew _ rfl rfl)
      simp only [process_recap_docket, hf, hfind1, docketFor]
      exact ⟨rfl, newDocket u db, mergeDocket u (newDocket u db),
        rfl, hfind2, rfl, rfl, remerge_length [] u.entries⟩
  · refine ⟨rfl, rfl, rfl⟩

theorem getLast?_mem {α : Type _} {l : List α} {a : α}
    (h : l.getLast? = some a) : a ∈ l := by
  rcases List.getLast?_eq_some_iff.mp h with ⟨ys, rfl⟩
  exact List.mem_append.mpr (Or.inr (List.mem_singleton.mpr rfl))

/-- Filtering the roles of `(apk, dpk)` out of a clean prefix followed by
freshly created roles yields exactly the fresh roles. -/
theorem rolesOn_append_new (old : List RoleRow) (roles : List Nat)
    (apk ppk dpk : Nat)
    (hold : ∀ r ∈ old, ¬(r.attorneyPk == apk && r.docketPk == dpk) = true) :
    (old ++ roles.map (mkRole apk ppk dpk)).filter
      (fun r => r.attorneyPk == apk && r.docketPk == dpk) =
    roles.map (mkRole apk ppk dpk) := by
  rw [List.filter_append, List.filter_eq_nil_iff.mpr hold, List.nil_append]
  apply List.filter_eq_self.mpr
  intro r hr
  rcases List.mem_map.mp hr with ⟨ro, hro, rfl⟩
  simp [mkRole]

/-- C8: `add_attorney` reuses an existing attorney only when both name and
contact info match — incoming data with no contact info always creates a
new attorney, even if a same-named attorney without contact info exists —
and the returned attorney's roles on the docket are exactly the incoming
roles, the prior ones having been deleted. -/
theorem add_attorney_dedup (atty : AttorneyData) (partyPk docketPk : Nat)
    (db : PeopleDB)
    (hA : ∀ a ∈ db.attorneys, a.pk ≠ db.nextPk)
    (hR : ∀ r ∈ db.roles, r.attorneyPk ≠ db.nextPk) :
    (atty.contact = "" →
       (add_attorney atty partyPk docketPk db).1 = db.nextPk ∧
       (add_attorney atty partyPk docketPk db).2.attorneys =
         db.attorneys ++
           [{ pk := db.nextPk, name := atty.name, email := atty.contact }] ∧
       ∀ a ∈ db.attorneys, a.pk ≠ (add_attorney atty partyPk docketPk db).1) ∧
    ((add_attorney atty partyPk docketPk db).1 = db.nextPk ∨
       (atty.contact ≠ "" ∧ ∃ a ∈ db.attorneys,
          a.pk = (add_attorney atty partyPk docketPk db).1 ∧
          a.name = atty.name ∧ a.email = atty.contact)) ∧
    (rolesOn (add_attorney atty partyPk docketPk db).2
        (add_attorney atty partyPk docketPk db).1 docketPk =
      atty.roles.map
        (mkRole (add_attorney atty partyPk docketPk db).1 partyPk docketPk)) := by
  by_cases hc : (atty.contact == "") = true
  · have hrun : add_attorney atty partyPk docketPk db =
        (db.nextPk,
          { attorneys := db.attorneys ++
              [{ pk := db.nextPk, name := atty.name, email := atty.contact }],
            roles := db.roles ++
              atty.roles.map (mkRole db.nextPk partyPk docketPk),
            nextPk := db.nextPk + 1 }) := by
      unfold add_attorney
      rw [if_pos hc]
    rw [hrun]
    refine ⟨fun _ => ⟨rfl, rfl, hA⟩, Or.inl rfl, ?_⟩
    unfold rolesOn
    apply rolesOn_append_new
    intro r hr hpr
    rcases Bool.and_eq_true_iff.mp hpr with ⟨h1, _⟩
    exact hR r hr (beq_iff_eq.mp h1)
  · cases hg : (db.attorneys.filter
        (fun a => a.name == atty.name && a.email == atty.contact)).getLast? with
    | none =>
      have hrun : add_attorney atty partyPk docketPk db =
          (db.nextPk,
            { attorneys := db.attorneys ++
                [{ pk := db.nextPk, name := atty.name,
                   email := atty.contact }],
              roles := db.roles ++
                atty.roles.map (mkRole db.nextPk partyPk docketPk),
              nextPk := db.nextPk + 1 }) := by
        unfold add_attorney
        rw [if_neg hc, hg]
      rw [hrun]
      refine ⟨fun _ => ⟨rfl, rfl, hA⟩, Or.inl rfl, ?_⟩
      unfold rolesOn
      apply rolesOn_append_new
      intro r hr hpr
      rcases Bool.and_eq_true_iff.mp hpr with ⟨h1, _⟩
      exact hR r hr (beq_iff_eq.mp h1)
    | some a =>
      have hmem := getLast?_mem hg
      rcases List.mem_filter.mp hmem with ⟨hain, hq⟩
      rcases Bool.and_eq_true_iff.mp hq with ⟨hname, hemail⟩
      have hrun : add_attorney atty partyPk docketPk db =
          (a.pk,
            { db with roles := (db.roles.filter
                (fun r => !(r.attorneyPk == a.pk && r.docketPk == docketPk)))
              ++ atty.roles.map (mkRole a.pk partyPk docketPk) }) := by
        unfold add_attorney
        rw [if_neg hc, hg]
      rw [hrun]
      refine ⟨?_, Or.inr ⟨by simpa using hc, a, hain, rfl,
        beq_iff_eq.mp hname, beq_iff_eq.mp hemail⟩, ?_⟩
      · intro hempty
        exact absurd (by simp [hempty]) hc
      · unfold rolesOn
        apply rolesOn_append_new
        intro r hr hpr
        rcases List.mem_filter.mp hr with ⟨_, hnot⟩
        rw [hpr] at hnot
        cases hnot

/-- Witness for C8 at a concrete database exercising the match branch. -/
theorem add_attorney_dedup_witness :
    (attyJamieson.contact = "" →
       (add_attorney attyJamieson 2 3 peopleDB0).1 = peopleDB0.nextPk ∧
       (add_attorney attyJamieson 2 3 peopleDB0).2.attorneys =
         peopleDB0.attorneys ++
           [{ pk := peopleDB0.nextPk, name := attyJamieson.name,
              email := attyJamieson.contact }] ∧
       ∀ a ∈ peopleDB0.attorneys,
         a.pk ≠ (add_attorney attyJamieson 2 3 peopleDB0).1) ∧
    ((add_attorney attyJamieson 2 3 peopleDB0).1 = peopleDB0.nextPk ∨
       (attyJamieson.contact ≠ "" ∧ ∃ a ∈ peopleDB0.attorneys,
          a.pk = (add_attorney attyJamieson 2 3 peopleDB0).1 ∧
          a.name = attyJamieson.name ∧ a.email = attyJamieson.contact)) ∧
    (rolesOn (add_attorney attyJamieson 2 3 peopleDB0).2
        (add_attorney attyJamieson 2 3 peopleDB0).1 3 =
      attyJamieson.roles.map
        (mkRole (add_attorney attyJamieson 2 3 peopleDB0).1 2 3)) :=
  add_attorney_dedup attyJamieson 2 3 peopleDB0 (by decide) (by decide)

/-- C9: `build_date_range` ignores its `range` parameter — every value
produces the same Solr range string, spanning exactly `date_filed` minus 5
days to `date_filed` plus 6 days; concretely, around 2015-03-10 (ordinal
735667) even `range = 99` yields `[2015-03-05Z TO 2015-03-16Z]`. -/
theorem build_date_range_ignores_range (date_filed range : Nat) :
    build_date_range date_filed range = build_date_range date_filed 5 ∧
    build_date_range date_filed range =
      "[" ++ isoformat (date_filed - 5) ++ "Z TO " ++
        isoformat (date_filed + 6) ++ "Z]" ∧
    build_date_range 735667 99 = "[2015-03-05Z TO 2015-03-16Z]" := by
  refine ⟨rfl, rfl, ?_⟩
  decide

/-- `tryFormats` returns `none` exactly when every format fails. -/
theorem tryFormats_eq_none_iff (fs : List String) (s : String) :
    tryFormats fs s = none ↔ ∀ f ∈ fs, strptime s f = none := by
  induction fs with
  | nil => simp [tryFormats]
  | cons f fs ih =>
    unfold tryFormats
    cases hf : strptime s f with
    | some d =>
      simp only [hf]
      constructor
      · intro h; cases h
      · intro h
        have := h f (List.mem_cons_self _ _)
        rw [hf] at this
        cases this
    | none =>
      simp only [hf, ih]
      constructor
      · intro h g hg
        rcases List.mem_cons.mp hg with hg | hg
        · rw [hg]; exact hf
        · exact h g hg
      · intro h g hg
        exact h g (List.mem_cons_of_mem _ hg)

/-- A successful `tryFormats` result comes from the first format that
parses, all earlier formats failing. -/
theorem tryFormats_first_success (fs : List String) (s : String)
    (d : PDate) :
    tryFormats fs s = some d →
    ∃ i, ∃ h : i < fs.length,
      strptime s (fs.get ⟨i, h⟩) = some d ∧
      ∀ j, ∀ hj : j < i,
        strptime s (fs.get ⟨j, Nat.lt_trans hj h⟩) = none := by
  induction fs with
  | nil => intro h; cases h
  | cons f fs ih =>
    intro h
    unfold tryFormats at h
    cases hf : strptime s f with
    | some d' =>
      rw [hf] at h
      cases h
      exact ⟨0, Nat.succ_pos _, hf,
        fun j hj => absurd hj (Nat.not_lt_zero j)⟩
    | none =>
      rw [hf] at h
      rcases ih h with ⟨i, hlt, hsome, hnone⟩
      refine ⟨i + 1, Nat.succ_lt_succ hlt, hsome, ?_⟩
      intro j hj
      cases j with
      | zero => exact hf
      | succ j' => exact hnone j' (Nat.lt_of_succ_lt_succ hj)

/-- C10: `parse_date` is total and order-deterministic — it returns the
result of the first of the five formats of `DATE_FORMATS` (in their fixed
order) that parses the string, and `none` when none matches; by
construction it returns a value instead of raising.  The docstring's
examples and several non-matching strings evaluate as Python does. -/
theorem parse_date_total_and_ordered (s : String) :
    (parse_date s = none ↔ ∀ f ∈ DATE_FORMATS, strptime s f = none) ∧
    (∀ d, parse_date s = some d →
       ∃ i, ∃ h : i < DATE_FORMATS.length,
         strptime s (DATE_FORMATS.get ⟨i, h⟩) = some d ∧
         ∀ j, ∀ hj : j < i,
           strptime s (DATE_FORMATS.get ⟨j, Nat.lt_trans hj h⟩) = none) ∧
    parse_date "January 10, 1999" =
      some { year := 1999, month := 1, day := 10 } ∧
    parse_date "24-Jul-97" = some { year := 1997, month := 7, day := 24 } ∧
    parse_date "1/17/1961" = some { year := 1961, month := 1, day := 17 } ∧
    parse_date "12/1/1960" = some { year := 1960, month := 12, day := 1 } ∧
    parse_date "26-Sep-00" = some { year := 2000, month := 9, day := 26 } ∧
    parse_date "Feb. 28, 2001" =
      some { year := 2001, month := 2, day := 28 } ∧
    parse_date "Feb. 30, 2001" = none ∧
    parse_date "garbage" = none := by
  refine ⟨tryFormats_eq_none_iff DATE_FORMATS s,
    fun d => tryFormats_first_success DATE_FORMATS s d,
    ?_, ?_, ?_, ?_, ?_, ?_, ?_, ?_⟩ <;> rfl

end CourtListener
